import Mathlib

/-!
Shallow embedding of the retrieval-augmented chat subsystem of MAAS-FastAPI
(`app/rag/routes.py`, `app/rag/chat_history.py`, `app/rag/utils.py`).

Modelling conventions:
- MongoDB documents become association lists; `update_one` without `upsert`
  modifies the first matching entry and is a no-op when nothing matches,
  exactly as in MongoDB.
- External capabilities (uuid4, wall clock, text splitter, embedding
  provider, summarization LLM, generation chain, Qdrant upsert outcomes)
  are oracle fields of an `Env` record.  The duck-typed discovery of an
  embedding method on the provider object is abstracted into one bulk
  oracle, matching `_get_embeddings_for_texts`'s observable behaviour.
- `time.time()` / `datetime.utcnow()` reads that only feed log lines
  (durations) are omitted; reads that land in persisted state consume the
  clock stream in program order.
- Qdrant side effects are additionally recorded in an effect trace so that
  "no collection was created, no points upserted" is directly statable.
-/

namespace MaasRag

/-- One chat message as stored by `ChatHistoryManager.add_message`:
the role is stored under the Mongo key `type`. -/
structure Message where
  type : String
  content : String
  timestamp : Nat
deriving Repr, DecidableEq

/-- One vectorstore metadata document (Mongo collection
`vectorstore_metadata`), as written by `upsert_vectorstore_metadata`. -/
structure MetaRecord where
  onboarding_id : String
  doc_type : String
  vectorstore_path : Option String
  chat_id : String
  collection_name : Option String
  qdrant_url : Option String
  qdrant_api_key : Option String
  created_at : Nat
  updated_at : Nat
deriving Repr, DecidableEq

/-- One Qdrant point (`PointStruct(id=..., vector=..., payload={"text": ...})`). -/
structure VPoint where
  id : String
  vector : List Int
  payload_text : String
deriving Repr, DecidableEq

/-- One Qdrant collection: fixed dimensionality plus stored points. -/
structure VCollection where
  dim : Nat
  points : List VPoint
deriving Repr, DecidableEq

/-- The persistent state reachable by the subsystem: metadata store,
chat-history store, vector index, plus the consumption counters of the
uuid and clock streams. -/
structure World where
  meta : List MetaRecord
  chats : List (String × List Message)
  index : List (String × VCollection)
  uuidCount : Nat
  clock : Nat
deriving Repr, DecidableEq

/-- Result dict of `chain.invoke`: the route reads keys `answer` and
`output_text` with Python truthiness. -/
structure GenResult where
  answer : Option String
  output_text : Option String
deriving Repr, DecidableEq

/-- The data of a built `ConversationalRetrievalChain` that the claims can
observe: target collection, retriever `k`, selected prompt. -/
structure ChainOk where
  collection_name : String
  k : Nat
  prompt : String
deriving Repr, DecidableEq

/-- The fields of `SetupResponse` the claims are about. -/
structure SetupResp where
  message : String
  chat_id : String
  vectorstore_path : Option String
deriving Repr, DecidableEq

/-- The fields of `ChatResponse` the claims are about. -/
structure ChatResp where
  answer : String
deriving Repr, DecidableEq

/-- `fastapi.HTTPException(status_code, detail)`. -/
structure HErr where
  status : Nat
  detail : String
deriving Repr, DecidableEq

/-- Oracles for everything outside the subsystem. -/
structure Env where
  uuids : Nat → String
  times : Nat → Nat
  split : String → List String
  embedBulk : List String → Except String (List (List Int))
  summarize : String → String
  generate : ChainOk → String → List Message → Except String GenResult
  upsertOut : Nat → Nat → Option String
  qdrant_url : Option String
  qdrant_api_key : Option String

/-- Trace of externally visible Qdrant operations. -/
inductive Eff where
  | recreate (name : String) (dim : Nat)
  | upsertCall (name : String) (npoints : Nat)
  | sleep (secs : Nat)
  | probe (name : String)
deriving Repr, DecidableEq

/-- Python truthiness of an optional string (`None` and `""` are falsy). -/
def strTruthy : Option String → Bool
  | some s => !s.isEmpty
  | none => false

/-- Python `str` whitespace for `strip()` (ASCII range). -/
def isPySpace (c : Char) : Bool :=
  c == ' ' || c == '\t' || c == '\n' || c == '\r' || c == '\x0b' || c == '\x0c'

/-- Python `str.strip()`: drop leading and trailing whitespace. -/
def pyStrip (s : String) : String :=
  String.mk (((s.data.dropWhile isPySpace).reverse.dropWhile isPySpace).reverse)

/-- Association-list lookup (first match), mirroring Mongo `find_one`. -/
def lookupA {α : Type} (l : List (String × α)) (k : String) : Option α :=
  (l.find? (fun p => p.1 == k)).map Prod.snd

/-- Update the first entry with the given key, mirroring Mongo
`update_one` without `upsert`: a no-op when nothing matches. -/
def updateFirst {α : Type} (l : List (String × α)) (k : String) (f : α → α) :
    List (String × α) :=
  match l with
  | [] => []
  | p :: rest => if p.1 == k then (p.1, f p.2) :: rest else p :: updateFirst rest k f

/-- First metadata document matching `(onboarding_id, doc_type)`. -/
def metaFind (l : List MetaRecord) (oid dt : String) : Option MetaRecord :=
  l.find? (fun m => m.onboarding_id == oid && m.doc_type == dt)

/-- Update the first metadata document matching `(onboarding_id, doc_type)`. -/
def metaUpdateFirst (l : List MetaRecord) (oid dt : String)
    (f : MetaRecord → MetaRecord) : List MetaRecord :=
  match l with
  | [] => []
  | m :: rest =>
      if m.onboarding_id == oid && m.doc_type == dt then f m :: rest
      else m :: metaUpdateFirst rest oid dt f

/-! ## ChatHistoryManager (`app/rag/chat_history.py`) -/

/-- `ChatHistoryManager.create_session`: upsert with `$setOnInsert`, so an
existing document is untouched and a missing one is inserted empty. -/
def create_session (w : World) (chat_id : String) : World :=
  if (lookupA w.chats chat_id).isSome then w
  else { w with chats := w.chats ++ [(chat_id, [])] }

/-- `ChatHistoryManager.get_messages`: messages array, `[]` if no document. -/
def get_messages (w : World) (chat_id : String) : List Message :=
  (lookupA w.chats chat_id).getD []

/-- `ChatHistoryManager.chat_exists`. -/
def chat_exists (w : World) (chat_id : String) : Bool :=
  (lookupA w.chats chat_id).isSome

/-- `ChatHistoryManager.add_message`: builds the entry (reading the clock)
and then `$push`es it with `update_one` and no `upsert` — a no-op when the
session document does not exist. -/
def add_message (env : Env) (w : World) (chat_id role content : String) : World :=
  let t := env.times w.clock
  let w' := { w with clock := w.clock + 1 }
  { w' with chats := updateFirst w'.chats chat_id (fun ms => ms ++ [⟨role, content, t⟩]) }

/-- The flattened blob `"\n".join(f"{TYPE_UPPER}: {content}")` built by
`summarize_if_needed`. -/
def renderBlob (ms : List Message) : String :=
  String.intercalate "\n" (ms.map (fun m => m.type.toUpper ++ ": " ++ m.content))

/-- `ChatHistoryManager.summarize_if_needed`. -/
def summarize_if_needed (env : Env) (w : World) (chat_id : String)
    (threshold : Nat := 10) : Bool × World :=
  let messages := get_messages w chat_id
  if messages.length ≤ threshold then (false, w)
  else
    let chat_text := renderBlob messages
    let summary := env.summarize chat_text
    let t := env.times w.clock
    let w' := { w with clock := w.clock + 1 }
    (true,
      { w' with
        chats := updateFirst w'.chats chat_id (fun _ => [⟨"ai", summary, t⟩]) })

/-! ## Metadata store (`app/rag/utils.py`) -/

/-- `get_vectorstore_path`: the URI-style logical path. -/
def get_vectorstore_path (oid dt : String) : String :=
  "qdrant://" ++ oid ++ "/" ++ dt

/-- `$set` part of `upsert_vectorstore_metadata` applied to an existing
document: `collection_name` / `qdrant_url` / `qdrant_api_key` are set only
when truthy. -/
def applyMetaSet (m : MetaRecord) (oid dt : String) (vs : Option String)
    (cid : String) (cn qu qk : Option String) (now : Nat) : MetaRecord :=
  { m with
    onboarding_id := oid
    doc_type := dt
    vectorstore_path := vs
    chat_id := cid
    updated_at := now
    collection_name := if strTruthy cn then cn else m.collection_name
    qdrant_url := if strTruthy qu then qu else m.qdrant_url
    qdrant_api_key := if strTruthy qk then qk else m.qdrant_api_key }

/-- The freshly inserted document when no `(onboarding_id, doc_type)` match
exists (`$set` plus `$setOnInsert created_at`). -/
def freshMetaRecord (oid dt : String) (vs : Option String) (cid : String)
    (cn qu qk : Option String) (now created : Nat) : MetaRecord :=
  { onboarding_id := oid
    doc_type := dt
    vectorstore_path := vs
    chat_id := cid
    collection_name := if strTruthy cn then cn else none
    qdrant_url := if strTruthy qu then qu else none
    qdrant_api_key := if strTruthy qk then qk else none
    created_at := created
    updated_at := now }

/-- `upsert_vectorstore_metadata`: Mongo upsert keyed by
`(onboarding_id, doc_type)`.  `datetime.utcnow()` is read once for the
`$set` dict and once for `$setOnInsert`. -/
def upsert_vectorstore_metadata (env : Env) (w : World) (oid dt : String)
    (vs : Option String) (cid : String)
    (cn : Option String := none) (qu : Option String := none)
    (qk : Option String := none) : World :=
  let t1 := env.times w.clock
  let t2 := env.times (w.clock + 1)
  let w' := { w with clock := w.clock + 2 }
  match metaFind w'.meta oid dt with
  | some _ =>
      { w' with meta := metaUpdateFirst w'.meta oid dt (fun m => applyMetaSet m oid dt vs cid cn qu qk t1) }
  | none =>
      { w' with meta := w'.meta ++ [freshMetaRecord oid dt vs cid cn qu qk t1 t2] }

/-- `get_vectorstore_metadata`. -/
def get_vectorstore_metadata (w : World) (oid dt : String) : Option MetaRecord :=
  metaFind w.meta oid dt

/-! ## Vector index operations -/

/-- `qdrant_client.recreate_collection`: discard any collection with this
name and create a fresh empty one of the given dimensionality. -/
def recreate_collection (w : World) (name : String) (dim : Nat) : World :=
  if (lookupA w.index name).isSome then
    { w with index := updateFirst w.index name (fun _ => ⟨dim, []⟩) }
  else
    { w with index := w.index ++ [(name, ⟨dim, []⟩)] }

/-- Effect of one successful `client.upsert` batch on the index. -/
def indexUpsert (w : World) (name : String) (pts : List VPoint) : World :=
  { w with index := updateFirst w.index name (fun c => { c with points := c.points ++ pts }) }

/-! ## Ingestion helpers (`app/rag/routes.py`) -/

/-- `_get_embeddings_for_texts`: returns `[]` immediately for an empty
text list, otherwise asks the embedding provider (the duck-typed method
discovery is collapsed into the single `embedBulk` oracle). -/
def getEmbeddingsForTexts (env : Env) (texts : List String) :
    Except String (List (List Int)) :=
  if texts.isEmpty then .ok []
  else env.embedBulk texts

/-- The retry loop of `safe_upsert`, phrased on the remaining attempt
budget `fuel = max_retries - attempt` so that the recursion is
structural.  `out a` is the outcome of attempt `a` (`none` = success,
`some e` = the exception message).  Returns the overall outcome plus the
trace of upsert attempts and sleeps; when the loop exits without a
recorded exception (`max_retries = 0`) the Python function just returns. -/
def safeUpsertGo (out : Nat → Option String) (name : String) (npoints : Nat) :
    Nat → Nat → Nat → Option String → Except String Unit × List Eff
  | 0, _, _, lastExc =>
      (match lastExc with
       | some e => .error e
       | none => .ok (), [])
  | fuel + 1, attempt, backoff, _ =>
      match out attempt with
      | none => (.ok (), [.upsertCall name npoints])
      | some e =>
          if fuel = 0 then (.error e, [.upsertCall name npoints])
          else
            let rest := safeUpsertGo out name npoints fuel (attempt + 1) (backoff * 2) (some e)
            (rest.1, .upsertCall name npoints :: .sleep backoff :: rest.2)

/-- `safe_upsert(client, collection_name, points, max_retries=3)`:
`attempt = 0`, `backoff = 1.0`, `last_exc = None`. -/
def safe_upsert (out : Nat → Option String) (name : String) (npoints : Nat)
    (maxRetries : Nat := 3) : Except String Unit × List Eff :=
  safeUpsertGo out name npoints maxRetries 0 1 none

/-- Batching of the points list, phrased with a fuel bounded by the list
length so that the recursion is structural: the route flushes whenever
the pending batch reaches `batch_size` (64 by default) and then flushes
the remainder. -/
def chunkListGo {α : Type} (size : Nat) : Nat → List α → List (List α)
  | 0, l => if l.isEmpty then [] else [l]
  | fuel + 1, l =>
      if l.isEmpty then []
      else if size = 0 then [l]
      else l.take size :: chunkListGo size fuel (l.drop size)

/-- Split a list into consecutive batches of `size` (last one partial). -/
def chunkList {α : Type} (size : Nat) (l : List α) : List (List α) :=
  chunkListGo size l.length l

/-- The points built in the ingestion loop: one fresh uuid per point, in
order, vector `i` paired with chunk `i` (`zip`). -/
def mkPoints (env : Env) (uuidStart : Nat) (vecs : List (List Int))
    (txts : List String) : List VPoint :=
  (vecs.zip txts).enum.map (fun p => ⟨env.uuids (uuidStart + p.1), p.2.1, p.2.2⟩)

/-- Upsert the batches in order through `safe_upsert`; a batch that
exhausts its retries aborts the rest, keeping the partial index state. -/
def upsertBatches (out : Nat → Nat → Option String) (w : World) (name : String)
    (bs : List (List VPoint)) (i : Nat) : Except String Unit × World × List Eff :=
  match bs with
  | [] => (.ok (), w, [])
  | b :: rest =>
      let r := safe_upsert (out i) name b.length 3
      match r.1 with
      | .error e => (.error e, w, r.2)
      | .ok _ =>
          let w' := indexUpsert w name b
          let res := upsertBatches out w' name rest (i + 1)
          (res.1, res.2.1, r.2 ++ res.2.2)

/-! ## `setup_rag_session` (POST /rag/initialization/...) -/

/-- The short-circuit branch taken when vectorstore metadata already
exists: no ingestion, reuse (or mint, when falsy) the stored `chat_id`,
ensure the chat session document exists, refresh the metadata record. -/
def setup_existing (env : Env) (w : World) (oid dt : String) (m : MetaRecord) :
    Except HErr SetupResp × World × List Eff :=
  let p :=
    if m.chat_id.isEmpty then
      (env.uuids w.uuidCount, { w with uuidCount := w.uuidCount + 1 })
    else (m.chat_id, w)
  let chat_id := p.1
  let w1 := p.2
  let w2 := if chat_exists w1 chat_id then w1 else create_session w1 chat_id
  let w3 := upsert_vectorstore_metadata env w2 oid dt m.vectorstore_path chat_id m.collection_name
  (.ok ⟨"RAG setup completed with existing vectorstore metadata.", chat_id, m.vectorstore_path⟩,
    w3, [])

/-- The fresh-ingestion branch of `setup_rag_session` (no metadata yet):
validate documents, create a session, split, embed, shape-check, recreate
the collection, upsert in batches of 64, persist metadata. -/
def ingest_new (env : Env) (w : World) (oid dt : String) (docs : List String) :
    Except HErr SetupResp × World × List Eff :=
  if docs.isEmpty then
    (.error ⟨400, "Please provide documents to ingest."⟩, w, [])
  else
    let chat_id := env.uuids w.uuidCount
    let w1 := create_session { w with uuidCount := w.uuidCount + 1 } chat_id
    let all_text := String.intercalate "\n\n" docs
    let text_chunks := env.split all_text
    let collection_name := "vs_" ++ oid ++ "_" ++ dt
    match getEmbeddingsForTexts env text_chunks with
    | .error e => (.error ⟨500, "Embedding error: " ++ e⟩, w1, [])
    | .ok vectors =>
        if vectors.isEmpty || vectors.length != text_chunks.length then
          (.error ⟨500, "Embedding generation failed or returned unexpected shape."⟩, w1, [])
        else
          let vector_size := (vectors.headD []).length
          if vector_size = 0 then
            (.error ⟨500, "Embedding returned empty vectors"⟩, w1, [])
          else
            let w2 := recreate_collection w1 collection_name vector_size
            let pts := mkPoints env w2.uuidCount vectors text_chunks
            let w3 := { w2 with uuidCount := w2.uuidCount + pts.length }
            let res := upsertBatches env.upsertOut w3 collection_name (chunkList 64 pts) 0
            match res.1 with
            | .error e =>
                (.error ⟨500, "Failed to upsert points into Qdrant: " ++ e⟩,
                  res.2.1, .recreate collection_name vector_size :: res.2.2)
            | .ok _ =>
                let vs_path := get_vectorstore_path oid dt
                let w4 := upsert_vectorstore_metadata env res.2.1 oid dt (some vs_path) chat_id
                  (some collection_name)
                (.ok ⟨"RAG setup completed.", chat_id, some vs_path⟩,
                  w4, .recreate collection_name vector_size :: res.2.2)

/-- `setup_rag_session`: dispatch on whether metadata already exists. -/
def setup_rag_session (env : Env) (w : World) (oid dt : String)
    (docs : List String) : Except HErr SetupResp × World × List Eff :=
  match metaFind w.meta oid dt with
  | some m => setup_existing env w oid dt m
  | none => ingest_new env w oid dt docs

/-! ## `build_rag_chain` and `chat_with_user` -/

/-- Prompt selection in `build_rag_chain` (prompt templates are opaque
string constants; they are represented here by their source names). -/
def select_prompt (prompt_type : String) : String :=
  if prompt_type == "page_speed" then "page_speed_prompt"
  else if prompt_type == "seo" then "seo_prompt"
  else if prompt_type == "content_relevance" then "content_relevance_prompt"
  else if prompt_type == "uiux" then "uiux_prompt"
  else if prompt_type == "mobile_usability" then "mobile_usability_prompt"
  else "default_user_prompt"

/-- The metadata-loading and fallback-detection phase of `build_rag_chain`:
load metadata; on a miss, probe Qdrant for the deterministic collection
name and auto-register metadata (with empty `chat_id`) when found.
Returns the metadata finally in hand, the state, and the probe trace. -/
def build_step (env : Env) (w : World) (oid dt : String) :
    Option MetaRecord × World × List Eff :=
  match metaFind w.meta oid dt with
  | some m => (some m, w, ([] : List Eff))
  | none =>
      let guessed := "vs_" ++ oid ++ "_" ++ dt
      if (lookupA w.index guessed).isSome then
        let w' := upsert_vectorstore_metadata env w oid dt
          (some (get_vectorstore_path oid dt)) ""
          (some guessed) env.qdrant_url env.qdrant_api_key
        (metaFind w'.meta oid dt, w', [Eff.probe guessed])
      else (none, w, [Eff.probe guessed])

/-- The verdict phase of `build_rag_chain`: with no metadata in hand raise
the actionable 400; with metadata but no truthy `collection_name` raise
500; otherwise the chain is built with a `k = 5` retriever and the
selected prompt. -/
def build_verdict (mo : Option MetaRecord) (prompt_type : String) :
    Except HErr ChainOk :=
  match mo with
  | none =>
      .error ⟨400,
        "Vectorstore metadata not found; run initialization first. Call POST /rag/initialization/{onboarding_id}/{doc_type} with documents to ingest. If you already initialized, check server logs for ingestion errors and verify Mongo collection vectorstore_meta_coll contains the record for this onboarding/doc_type."⟩
  | some m =>
      match m.collection_name with
      | none => .error ⟨500, "Qdrant collection name missing in metadata."⟩
      | some cn =>
          if cn.isEmpty then .error ⟨500, "Qdrant collection name missing in metadata."⟩
          else .ok ⟨cn, 5, select_prompt prompt_type⟩

/-- `build_rag_chain` = detection phase plus verdict (the Python function
performs no state change after the detection phase; `chat_id` is only
threaded into the LangChain memory object, which this model keeps outside
the observable state). -/
def build_rag_chain (env : Env) (w : World) (oid dt chat_id prompt_type : String) :
    Except HErr ChainOk × World × List Eff :=
  (build_verdict (build_step env w oid dt).1 prompt_type,
    (build_step env w oid dt).2.1, (build_step env w oid dt).2.2)

/-- `result.get("answer") or result.get("output_text") or ""`. -/
def answerOf (r : GenResult) : String :=
  if strTruthy r.answer then r.answer.getD ""
  else if strTruthy r.output_text then r.output_text.getD ""
  else ""

/-- `chat_with_user` (POST /rag/chat/...): validate metadata, session and
question; maybe summarize; append the human turn; build the chain; invoke
generation; append the ai turn. -/
def chat_with_user (env : Env) (w : World) (oid dt chat_id prompt_type : String)
    (question : String) : Except HErr ChatResp × World × List Eff :=
  match metaFind w.meta oid dt with
  | none =>
      (.error ⟨400, "Vectorstore metadata not found; run initialization first."⟩, w, [])
  | some _ =>
      if !chat_exists w chat_id then
        (.error ⟨404, "Chat session " ++ chat_id ++ " not found."⟩, w, [])
      else
        let q := pyStrip question
        if q.isEmpty then
          (.error ⟨400, "Question cannot be empty."⟩, w, [])
        else
          let w1 := (summarize_if_needed env w chat_id 10).2
          let w2 := add_message env w1 chat_id "human" q
          let built := build_rag_chain env w2 oid dt chat_id prompt_type
          match built.1 with
          | .error e => (.error e, built.2.1, built.2.2)
          | .ok chain =>
              let w3 := built.2.1
              let history := get_messages w3 chat_id
              match env.generate chain q history with
              | .error e =>
                  (.error ⟨500, "RAG chain invocation failed: " ++ e⟩, w3, built.2.2)
              | .ok res =>
                  let answer := answerOf res
                  let w4 := add_message env w3 chat_id "ai" answer
                  (.ok ⟨answer⟩, w4, built.2.2)

/-! ## Harness for sequential append scenarios -/

/-- N sequential `add_message` calls on one chat session. -/
def addAll (env : Env) (w : World) (cid : String)
    (entries : List (String × String)) : World :=
  entries.foldl (fun acc rc => add_message env acc cid rc.1 rc.2) w

/-- The messages those sequential calls are expected to produce: entry `i`
carries the clock value read at call `i`. -/
def stampFrom (env : Env) (t : Nat) : List (String × String) → List Message
  | [] => []
  | rc :: rest => ⟨rc.1, rc.2, env.times t⟩ :: stampFrom env (t + 1) rest

/-! ## Concrete environments and worlds for closed evaluations -/

/-- A benign environment: one chunk per nonempty text, 2-dimensional
embeddings, every upsert attempt succeeds, generation answers. -/
def envC : Env :=
  { uuids := fun n => "uuid-" ++ toString n
    times := fun n => n
    split := fun s => if s.isEmpty then [] else [s]
    embedBulk := fun ts => .ok (ts.map fun _ => [1, 2])
    summarize := fun _ => "summary"
    generate := fun _ _ _ => .ok ⟨some "answer", none⟩
    upsertOut := fun _ _ => none
    qdrant_url := none
    qdrant_api_key := none }

/-- An embedding provider that returns no vectors at all. -/
def envBadEmbed : Env := { envC with embedBulk := fun _ => .ok [] }

/-- A generation capability that always fails. -/
def envGenFail : Env := { envC with generate := fun _ _ _ => .error "boom" }

/-- A Qdrant upsert that fails on every attempt, with the attempt number
in the error message. -/
def envUpsertFail : Env :=
  { envC with upsertOut := fun _ a => some ("err" ++ toString a) }

/-- The empty initial state. -/
def w0 : World := ⟨[], [], [], 0, 0⟩

/-- A metadata record as the first successful setup call of `envC` on
`("t", "d")` persists it. -/
def metaC : MetaRecord :=
  ⟨"t", "d", some "qdrant://t/d", "uuid-0", some "vs_t_d", none, none, 1, 0⟩

/-- A state with metadata, an empty chat session `uuid-0`, and the
matching collection. -/
def wChat : World := ⟨[metaC], [("uuid-0", [])], [("vs_t_d", ⟨2, []⟩)], 2, 2⟩

/-- A state with NO metadata but an existing collection `vs_t_d` and an
existing session `c`: the fallback-detection scenario. -/
def wColl : World := ⟨[], [("c", [])], [("vs_t_d", ⟨1, []⟩)], 0, 0⟩

/-- A session holding exactly 10 messages. -/
def w10 : World := ⟨[], [("c", List.replicate 10 ⟨"human", "m", 0⟩)], [], 0, 100⟩

/-- A session holding exactly 11 messages. -/
def w11 : World := ⟨[], [("c", List.replicate 11 ⟨"human", "m", 0⟩)], [], 0, 100⟩

/-! ## Basic lemmas about the stores -/

theorem lookupA_updateFirst {α : Type} (l : List (String × α)) (k : String)
    (f : α → α) : lookupA (updateFirst l k f) k = (lookupA l k).map f := by
  induction l with
  | nil => rfl
  | cons p rest ih =>
      unfold updateFirst
      by_cases hpk : p.1 == k
      · simp only [hpk, if_true]
        unfold lookupA
        rw [List.find?_cons_of_pos _ (by simpa using hpk),
          List.find?_cons_of_pos _ (by simpa using hpk)]
        rfl
      · simp only [hpk, Bool.false_eq_true, if_false]
        unfold lookupA at ih ⊢
        rw [List.find?_cons_of_neg _ (by simpa using hpk),
          List.find?_cons_of_neg _ (by simpa using hpk)]
        exact ih

theorem lookupA_isSome_updateFirst {α : Type} (l : List (String × α))
    (k : String) (f : α → α) :
    (lookupA (updateFirst l k f) k).isSome = (lookupA l k).isSome := by
  rw [lookupA_updateFirst]; cases lookupA l k <;> rfl

theorem lookupA_append_of_none {α : Type} (l : List (String × α)) (k : String)
    (v : α) (h : lookupA l k = none) :
    lookupA (l ++ [(k, v)]) k = some v := by
  unfold lookupA at h ⊢
  rw [List.find?_append]
  cases hf : l.find? (fun p => p.1 == k) with
  | none => simp [List.find?]
  | some p => rw [hf] at h; simp at h

theorem metaFind_append_of_none (l : List MetaRecord) (oid dt : String)
    (m : MetaRecord) (h : metaFind l oid dt = none)
    (hm : (m.onboarding_id == oid && m.doc_type == dt) = true) :
    metaFind (l ++ [m]) oid dt = some m := by
  unfold metaFind at h ⊢
  rw [List.find?_append, h]
  simp [List.find?, hm]

/-! ## State-preservation lemmas -/

theorem create_session_meta (w : World) (c : String) :
    (create_session w c).meta = w.meta := by
  unfold create_session; split <;> rfl

theorem create_session_index (w : World) (c : String) :
    (create_session w c).index = w.index := by
  unfold create_session; split <;> rfl

theorem create_session_uuidCount (w : World) (c : String) :
    (create_session w c).uuidCount = w.uuidCount := by
  unfold create_session; split <;> rfl

theorem create_session_clock (w : World) (c : String) :
    (create_session w c).clock = w.clock := by
  unfold create_session; split <;> rfl

theorem add_message_meta (env : Env) (w : World) (cid r c : String) :
    (add_message env w cid r c).meta = w.meta := rfl

theorem add_message_index (env : Env) (w : World) (cid r c : String) :
    (add_message env w cid r c).index = w.index := rfl

theorem add_message_clock (env : Env) (w : World) (cid r c : String) :
    (add_message env w cid r c).clock = w.clock + 1 := rfl

theorem chat_exists_add_message (env : Env) (w : World) (cid r c : String) :
    chat_exists (add_message env w cid r c) cid = chat_exists w cid := by
  unfold chat_exists add_message
  exact lookupA_isSome_updateFirst _ _ _

theorem get_messages_add_message (env : Env) (w : World) (cid r c : String)
    (h : chat_exists w cid = true) :
    get_messages (add_message env w cid r c) cid =
      get_messages w cid ++ [⟨r, c, env.times w.clock⟩] := by
  unfold chat_exists at h
  unfold get_messages add_message
  rw [lookupA_updateFirst]
  cases hl : lookupA w.chats cid with
  | none => rw [hl] at h; simp at h
  | some ms => simp

theorem summarize_meta (env : Env) (w : World) (cid : String) (th : Nat) :
    ((summarize_if_needed env w cid th).2).meta = w.meta := by
  simp only [summarize_if_needed]; split <;> rfl

theorem summarize_index (env : Env) (w : World) (cid : String) (th : Nat) :
    ((summarize_if_needed env w cid th).2).index = w.index := by
  simp only [summarize_if_needed]; split <;> rfl

theorem chat_exists_summarize (env : Env) (w : World) (cid : String) (th : Nat) :
    chat_exists ((summarize_if_needed env w cid th).2) cid = chat_exists w cid := by
  simp only [summarize_if_needed]
  split
  · rfl
  · unfold chat_exists
    exact lookupA_isSome_updateFirst _ _ _

theorem upsert_meta_chats (env : Env) (w : World) (oid dt : String)
    (vs : Option String) (cid : String) (cn qu qk : Option String) :
    (upsert_vectorstore_metadata env w oid dt vs cid cn qu qk).chats = w.chats := by
  simp only [upsert_vectorstore_metadata]
  split <;> rfl

theorem upsert_meta_index (env : Env) (w : World) (oid dt : String)
    (vs : Option String) (cid : String) (cn qu qk : Option String) :
    (upsert_vectorstore_metadata env w oid dt vs cid cn qu qk).index = w.index := by
  simp only [upsert_vectorstore_metadata]
  split <;> rfl

theorem upsert_meta_uuidCount (env : Env) (w : World) (oid dt : String)
    (vs : Option String) (cid : String) (cn qu qk : Option String) :
    (upsert_vectorstore_metadata env w oid dt vs cid cn qu qk).uuidCount = w.uuidCount := by
  simp only [upsert_vectorstore_metadata]
  split <;> rfl

theorem metaFind_upsert_of_none (env : Env) (w : World) (oid dt : String)
    (vs : Option String) (cid : String) (cn qu qk : Option String)
    (h : metaFind w.meta oid dt = none) :
    metaFind (upsert_vectorstore_metadata env w oid dt vs cid cn qu qk).meta oid dt =
      some (freshMetaRecord oid dt vs cid cn qu qk (env.times w.clock)
        (env.times (w.clock + 1))) := by
  simp only [upsert_vectorstore_metadata, h]
  exact metaFind_append_of_none _ _ _ _ h (by simp [freshMetaRecord])

theorem recreate_meta (w : World) (n : String) (d : Nat) :
    (recreate_collection w n d).meta = w.meta := by
  unfold recreate_collection; split <;> rfl

theorem recreate_chats (w : World) (n : String) (d : Nat) :
    (recreate_collection w n d).chats = w.chats := by
  unfold recreate_collection; split <;> rfl

theorem recreate_uuidCount (w : World) (n : String) (d : Nat) :
    (recreate_collection w n d).uuidCount = w.uuidCount := by
  unfold recreate_collection; split <;> rfl

theorem recreate_clock (w : World) (n : String) (d : Nat) :
    (recreate_collection w n d).clock = w.clock := by
  unfold recreate_collection; split <;> rfl

theorem upsertBatches_frame (out : Nat → Nat → Option String) (w : World)
    (name : String) (bs : List (List VPoint)) (i : Nat) :
    ((upsertBatches out w name bs i).2.1).meta = w.meta ∧
    ((upsertBatches out w name bs i).2.1).chats = w.chats ∧
    ((upsertBatches out w name bs i).2.1).clock = w.clock ∧
    ((upsertBatches out w name bs i).2.1).uuidCount = w.uuidCount := by
  induction bs generalizing w i with
  | nil => exact ⟨rfl, rfl, rfl, rfl⟩
  | cons b rest ih =>
      simp only [upsertBatches]
      cases hsu : (safe_upsert (out i) name b.length 3).1 with
      | error e => exact ⟨rfl, rfl, rfl, rfl⟩
      | ok u => simpa using ih (indexUpsert w name b) (i + 1)

/-! ## Lemmas for the chat pipeline -/

theorem build_step_of_some (env : Env) (w : World) (oid dt : String)
    (m : MetaRecord) (h : metaFind w.meta oid dt = some m) :
    build_step env w oid dt = (some m, w, []) := by
  simp [build_step, h]

theorem vs_isEmpty_false (oid dt : String) :
    ("vs_" ++ oid ++ "_" ++ dt).isEmpty = false := by
  rw [Bool.eq_false_iff]
  intro h
  have h' := (String.isEmpty_iff _).mp h
  have hd := congrArg String.data h'
  rw [String.data_append, String.data_append, String.data_append] at hd
  have hvs : ("vs_" : String).data = ['v', 's', '_'] := rfl
  rw [hvs] at hd
  simp at hd

theorem pyStrip_of_all_space (s : String)
    (h : ∀ c ∈ s.data, isPySpace c = true) : pyStrip s = "" := by
  unfold pyStrip
  have h1 : s.data.dropWhile isPySpace = [] := by
    rw [List.dropWhile_eq_nil_iff]
    exact fun c hc => h c hc
  rw [h1]
  rfl

theorem addAll_messages (env : Env) (w : World) (cid : String)
    (entries : List (String × String)) (h : chat_exists w cid = true) :
    get_messages (addAll env w cid entries) cid =
      get_messages w cid ++ stampFrom env w.clock entries := by
  induction entries generalizing w with
  | nil => simp [addAll, stampFrom]
  | cons rc rest ih =>
      have h2 : chat_exists (add_message env w cid rc.1 rc.2) cid = true := by
        rw [chat_exists_add_message]; exact h
      have step : addAll env w cid (rc :: rest) =
          addAll env (add_message env w cid rc.1 rc.2) cid rest := rfl
      rw [step, ih _ h2, get_messages_add_message env w cid rc.1 rc.2 h,
        add_message_clock]
      simp [stampFrom]

theorem stampFrom_chain (env : Env) (t : Nat)
    (entries : List (String × String)) (hm : Monotone env.times) :
    List.Chain' (fun a b => a.timestamp ≤ b.timestamp)
      (stampFrom env t entries) := by
  induction entries generalizing t with
  | nil => simp [stampFrom]
  | cons rc rest ih =>
      cases rest with
      | nil => simp [stampFrom]
      | cons rc2 rest2 =>
          have htail := ih (t + 1)
          simp only [stampFrom] at htail ⊢
          rw [List.chain'_cons]
          exact ⟨hm (Nat.le_succ t), htail⟩

/-! ## Claim theorems -/

/-- Claim C5: each batch upsert is attempted up to 3 times, with
exponential backoff starting at 1 second and doubling each attempt
(the backoff value is 2^k before attempt k, so the schedule is 1s, 2s,
4s, of which the sleeps actually performed before a retry are 1s and
2s); exhausting the retries surfaces the last error, and in the
ingestion flow this aborts the whole ingestion with that error in the
500 detail. -/
theorem claim5_upsert_retry_backoff :
    (∀ (out : Nat → Option String) (name : String) (n : Nat),
      safe_upsert out name n 3 =
        match out 0 with
        | none => (Except.ok (), [Eff.upsertCall name n])
        | some _ =>
          match out 1 with
          | none =>
              (Except.ok (),
                [Eff.upsertCall name n, Eff.sleep 1, Eff.upsertCall name n])
          | some _ =>
            match out 2 with
            | none =>
                (Except.ok (),
                  [Eff.upsertCall name n, Eff.sleep 1, Eff.upsertCall name n,
                    Eff.sleep 2, Eff.upsertCall name n])
            | some e =>
                (Except.error e,
                  [Eff.upsertCall name n, Eff.sleep 1, Eff.upsertCall name n,
                    Eff.sleep 2, Eff.upsertCall name n])) ∧
    (setup_rag_session envUpsertFail w0 "t" "d" ["doc one"]).1 =
      Except.error ⟨500, "Failed to upsert points into Qdrant: err2"⟩ := by
  constructor
  · intro out name n
    cases h0 : out 0 with
    | none => simp [safe_upsert, safeUpsertGo, h0]
    | some e0 =>
        cases h1 : out 1 with
        | none => simp [safe_upsert, safeUpsertGo, h0, h1]
        | some e1 =>
            cases h2 : out 2 with
            | none => simp [safe_upsert, safeUpsertGo, h0, h1, h2]
            | some e2 => simp [safe_upsert, safeUpsertGo, h0, h1, h2]
  · rfl

/-- Claim C3: with threshold 10, `summarize_if_needed` returns `False`
and leaves the state untouched when the session holds at most 10
messages; with 11 or more it returns `True` and replaces the whole
messages array by the single `ai` entry whose content is the summary of
the blob rendered `"{ROLE_UPPER}: {content}"` per message, newline
joined, in stored order. -/
theorem claim3_summarize_threshold (env : Env) (w : World) (cid : String) :
    ((get_messages w cid).length ≤ 10 →
      summarize_if_needed env w cid 10 = (false, w)) ∧
    (10 < (get_messages w cid).length →
      (summarize_if_needed env w cid 10).1 = true ∧
      get_messages (summarize_if_needed env w cid 10).2 cid =
        [⟨"ai",
          env.summarize (String.intercalate "\n"
            ((get_messages w cid).map
              (fun m => m.type.toUpper ++ ": " ++ m.content))),
          env.times w.clock⟩]) := by
  constructor
  · intro h
    simp only [summarize_if_needed]
    rw [if_pos h]
  · intro h
    have hnot : ¬ (get_messages w cid).length ≤ 10 := by omega
    have hsome : ∃ ms, lookupA w.chats cid = some ms := by
      cases hl : lookupA w.chats cid with
      | none =>
          exfalso
          have : get_messages w cid = [] := by
            unfold get_messages; rw [hl]; rfl
          rw [this] at h; simp at h
      | some ms => exact ⟨ms, rfl⟩
    obtain ⟨ms, hms⟩ := hsome
    constructor
    · simp only [summarize_if_needed]
      rw [if_neg hnot]
    · simp only [summarize_if_needed]
      rw [if_neg hnot]
      unfold get_messages
      simp only
      rw [lookupA_updateFirst, hms]
      simp [renderBlob]

/-- Witness for C3: a 10-message session is untouched; an 11-message
session collapses to the single summary entry. -/
theorem claim3_witness :
    (summarize_if_needed envC w10 "c" 10 = (false, w10)) ∧
    ((summarize_if_needed envC w11 "c" 10).1 = true ∧
      get_messages (summarize_if_needed envC w11 "c" 10).2 "c" =
        [⟨"ai",
          envC.summarize (String.intercalate "\n"
            ((get_messages w11 "c").map
              (fun m => m.type.toUpper ++ ": " ++ m.content))),
          envC.times w11.clock⟩]) :=
  ⟨(claim3_summarize_threshold envC w10 "c").1 (by decide),
   (claim3_summarize_threshold envC w11 "c").2 (by decide)⟩

/-- Claim C2 counterexample: a state with no metadata for `("t","d")`,
an existing session `c`, and an existing collection `vs_t_d`.  The chat
call does not probe the index, does not auto-register metadata, and does
not answer: it fails with the 400 client error and leaves the state
untouched (in particular the metadata store stays empty). -/
theorem claim2_counterexample :
    metaFind wColl.meta "t" "d" = none ∧
    lookupA wColl.index "vs_t_d" = some ⟨1, []⟩ ∧
    chat_with_user envC wColl "t" "d" "c" "seo" "hi" =
      (Except.error ⟨400, "Vectorstore metadata not found; run initialization first."⟩,
        wColl, []) :=
  ⟨rfl, rfl, rfl⟩

/-- Claim C2 (amended): when no metadata record exists, the chat
operation itself fails with the 400 client error directing the caller to
run initialization first, leaving the state unchanged and performing no
probe — regardless of whether the collection exists.  The Vector-Index
probe and metadata auto-registration live only in `build_rag_chain`,
which the chat route reaches only after metadata was found; called
directly with absent metadata and the collection present, it probes and
auto-registers a record with the deterministic collection name and an
empty `chat_id`. -/
theorem claim2_chat_no_fallback (env : Env) (w : World)
    (oid dt cid pt q : String) (h : metaFind w.meta oid dt = none) :
    chat_with_user env w oid dt cid pt q =
      (Except.error ⟨400, "Vectorstore metadata not found; run initialization first."⟩,
        w, []) ∧
    ((lookupA w.index ("vs_" ++ oid ++ "_" ++ dt)).isSome = true →
      (build_rag_chain env w oid dt cid pt).2.2 =
        [Eff.probe ("vs_" ++ oid ++ "_" ++ dt)] ∧
      ∃ m, metaFind ((build_rag_chain env w oid dt cid pt).2.1).meta oid dt = some m ∧
        m.collection_name = some ("vs_" ++ oid ++ "_" ++ dt) ∧
        m.chat_id = "") := by
  constructor
  · simp [chat_with_user, h]
  · intro hfound
    have hstep : build_step env w oid dt =
        (metaFind (upsert_vectorstore_metadata env w oid dt
            (some (get_vectorstore_path oid dt)) ""
            (some ("vs_" ++ oid ++ "_" ++ dt)) env.qdrant_url env.qdrant_api_key).meta
            oid dt,
          upsert_vectorstore_metadata env w oid dt
            (some (get_vectorstore_path oid dt)) ""
            (some ("vs_" ++ oid ++ "_" ++ dt)) env.qdrant_url env.qdrant_api_key,
          [Eff.probe ("vs_" ++ oid ++ "_" ++ dt)]) := by
      simp [build_step, h, hfound]
    have hreg := metaFind_upsert_of_none env w oid dt
      (some (get_vectorstore_path oid dt)) ""
      (some ("vs_" ++ oid ++ "_" ++ dt)) env.qdrant_url env.qdrant_api_key h
    constructor
    · simp [build_rag_chain, hstep]
    · refine ⟨freshMetaRecord oid dt (some (get_vectorstore_path oid dt)) ""
        (some ("vs_" ++ oid ++ "_" ++ dt)) env.qdrant_url env.qdrant_api_key
        (env.times w.clock) (env.times (w.clock + 1)), ?_, ?_, ?_⟩
      · simp only [build_rag_chain, hstep]
        exact hreg
      · simp [freshMetaRecord, strTruthy, vs_isEmpty_false]
      · rfl

/-- Witness for C2 (amended), at the concrete fallback state. -/
theorem claim2_witness :
    chat_with_user envC wColl "t" "d" "c" "page_speed" "hello" =
      (Except.error ⟨400, "Vectorstore metadata not found; run initialization first."⟩,
        wColl, []) ∧
    ((lookupA wColl.index ("vs_" ++ "t" ++ "_" ++ "d")).isSome = true →
      (build_rag_chain envC wColl "t" "d" "c" "page_speed").2.2 =
        [Eff.probe ("vs_" ++ "t" ++ "_" ++ "d")] ∧
      ∃ m, metaFind ((build_rag_chain envC wColl "t" "d" "c" "page_speed").2.1).meta
          "t" "d" = some m ∧
        m.collection_name = some ("vs_" ++ "t" ++ "_" ++ "d") ∧
        m.chat_id = "") :=
  claim2_chat_no_fallback envC wColl "t" "d" "c" "page_speed" "hello" rfl

/-- Claim C8: chatting against a session that was never created fails
with a client error (the 404 session-not-found when metadata exists, the
400 metadata-not-found otherwise — both "not found" details), an empty
question fails with a 400, and in every one of these validation failures
the returned state is exactly the input state, so no message was
appended. -/
theorem claim8_chat_validation (env : Env) (w : World)
    (oid dt cid pt q : String) :
    (∀ m, metaFind w.meta oid dt = some m → chat_exists w cid = false →
      chat_with_user env w oid dt cid pt q =
        (Except.error ⟨404, "Chat session " ++ cid ++ " not found."⟩, w, [])) ∧
    (chat_exists w cid = false →
      chat_with_user env w oid dt cid pt q =
          (Except.error ⟨400, "Vectorstore metadata not found; run initialization first."⟩,
            w, []) ∨
      chat_with_user env w oid dt cid pt q =
          (Except.error ⟨404, "Chat session " ++ cid ++ " not found."⟩, w, [])) ∧
    (∀ m, metaFind w.meta oid dt = some m → chat_exists w cid = true →
      pyStrip q = "" →
      chat_with_user env w oid dt cid pt q =
        (Except.error ⟨400, "Question cannot be empty."⟩, w, [])) := by
  refine ⟨?_, ?_, ?_⟩
  · intro m hm hs
    simp [chat_with_user, hm, hs]
  · intro hs
    cases hmeta : metaFind w.meta oid dt with
    | none => exact Or.inl (by simp [chat_with_user, hmeta])
    | some m => exact Or.inr (by simp [chat_with_user, hmeta, hs])
  · intro m hm hs hq
    simp [chat_with_user, hm, hs, hq, String.isEmpty_iff]

/-- Witness for C8: missing session under `wChat` metadata gives the
404; empty question on the existing session gives the 400; both leave
the state untouched. -/
theorem claim8_witness :
    (chat_with_user envC wChat "t" "d" "ghost" "seo" "hi" =
      (Except.error ⟨404, "Chat session " ++ "ghost" ++ " not found."⟩, wChat, [])) ∧
    (chat_with_user envC wChat "t" "d" "uuid-0" "seo" "" =
      (Except.error ⟨400, "Question cannot be empty."⟩, wChat, [])) :=
  ⟨(claim8_chat_validation envC wChat "t" "d" "ghost" "seo" "hi").1 metaC rfl rfl,
   (claim8_chat_validation envC wChat "t" "d" "uuid-0" "seo" "").2.2 metaC rfl rfl rfl⟩

/-- Claim C9: a question consisting only of whitespace characters is
stripped to the empty string before validation and therefore rejected
with the same 400 "Question cannot be empty." client error as a truly
empty question, with the state (hence the chat history) unchanged. -/
theorem claim9_whitespace_question (env : Env) (w : World)
    (oid dt cid pt q : String) (m : MetaRecord)
    (hm : metaFind w.meta oid dt = some m)
    (hs : chat_exists w cid = true)
    (hws : ∀ c ∈ q.data, isPySpace c = true) :
    chat_with_user env w oid dt cid pt q =
      (Except.error ⟨400, "Question cannot be empty."⟩, w, []) := by
  have hq : pyStrip q = "" := pyStrip_of_all_space q hws
  simp [chat_with_user, hm, hs, hq, String.isEmpty_iff]

/-- Witness for C9: a tab-space-newline question is rejected exactly
like the empty one. -/
theorem claim9_witness :
    chat_with_user envC wChat "t" "d" "uuid-0" "seo" " \t\n " =
      (Except.error ⟨400, "Question cannot be empty."⟩, wChat, []) :=
  claim9_whitespace_question envC wChat "t" "d" "uuid-0" "seo" " \t\n " metaC
    rfl rfl (by decide)

/-- Claim C6: when validation passes and the chain is built but the
generation invocation fails, the chat turn returns the 500 error, and
the final state is exactly the post-summarize state with the single
human message appended — so the question stays persisted with no ai
answer, and neither the metadata store nor the vector index changed. -/
theorem claim6_failed_generation (env : Env) (w : World)
    (oid dt cid pt q : String) (m : MetaRecord) (cn : String) (e : String)
    (hm : metaFind w.meta oid dt = some m)
    (hcn : m.collection_name = some cn) (hcn2 : cn ≠ "")
    (hs : chat_exists w cid = true)
    (hq : pyStrip q ≠ "")
    (hgen : ∀ c qq hist, env.generate c qq hist = Except.error e) :
    chat_with_user env w oid dt cid pt q =
      (Except.error ⟨500, "RAG chain invocation failed: " ++ e⟩,
        add_message env (summarize_if_needed env w cid 10).2 cid "human" (pyStrip q),
        []) ∧
    get_messages ((chat_with_user env w oid dt cid pt q).2.1) cid =
      get_messages (summarize_if_needed env w cid 10).2 cid ++
        [⟨"human", pyStrip q,
          env.times ((summarize_if_needed env w cid 10).2).clock⟩] ∧
    ((chat_with_user env w oid dt cid pt q).2.1).meta = w.meta ∧
    ((chat_with_user env w oid dt cid pt q).2.1).index = w.index := by
  have hq' : (pyStrip q).isEmpty = false := by
    rw [Bool.eq_false_iff]
    intro h'
    exact hq ((String.isEmpty_iff _).mp h')
  have hmeta2 : metaFind (add_message env (summarize_if_needed env w cid 10).2
      cid "human" (pyStrip q)).meta oid dt = some m := by
    rw [add_message_meta, summarize_meta]; exact hm
  have hbuild : build_rag_chain env
      (add_message env (summarize_if_needed env w cid 10).2 cid "human" (pyStrip q))
      oid dt cid pt =
      (Except.ok ⟨cn, 5, select_prompt pt⟩,
        add_message env (summarize_if_needed env w cid 10).2 cid "human" (pyStrip q),
        []) := by
    rw [build_rag_chain, build_step_of_some _ _ _ _ _ hmeta2]
    simp [build_verdict, hcn, hq, String.isEmpty_iff, hcn2]
  have hmain : chat_with_user env w oid dt cid pt q =
      (Except.error ⟨500, "RAG chain invocation failed: " ++ e⟩,
        add_message env (summarize_if_needed env w cid 10).2 cid "human" (pyStrip q),
        []) := by
    simp only [chat_with_user, hm, hs, Bool.not_true, Bool.false_eq_true,
      if_false, hq', hbuild, hgen]
  refine ⟨hmain, ?_, ?_, ?_⟩
  · rw [hmain]
    exact get_messages_add_message env _ cid "human" (pyStrip q)
      (by rw [chat_exists_summarize]; exact hs)
  · rw [hmain]
    simp only [add_message_meta, summarize_meta]
  · rw [hmain]
    have h1 : (add_message env (summarize_if_needed env w cid 10).2 cid "human"
        (pyStrip q)).index = ((summarize_if_needed env w cid 10).2).index :=
      add_message_index _ _ _ _ _
    rw [h1, summarize_index]

/-- Witness for C6: under the failing generator, the question `hi` stays
in session `uuid-0` with no ai entry and metadata/index untouched. -/
theorem claim6_witness :
    chat_with_user envGenFail wChat "t" "d" "uuid-0" "seo" "hi" =
      (Except.error ⟨500, "RAG chain invocation failed: " ++ "boom"⟩,
        add_message envGenFail (summarize_if_needed envGenFail wChat "uuid-0" 10).2
          "uuid-0" "human" (pyStrip "hi"),
        []) ∧
    get_messages ((chat_with_user envGenFail wChat "t" "d" "uuid-0" "seo" "hi").2.1)
        "uuid-0" =
      get_messages (summarize_if_needed envGenFail wChat "uuid-0" 10).2 "uuid-0" ++
        [⟨"human", pyStrip "hi",
          envGenFail.times ((summarize_if_needed envGenFail wChat "uuid-0" 10).2).clock⟩] ∧
    ((chat_with_user envGenFail wChat "t" "d" "uuid-0" "seo" "hi").2.1).meta =
      wChat.meta ∧
    ((chat_with_user envGenFail wChat "t" "d" "uuid-0" "seo" "hi").2.1).index =
      wChat.index :=
  claim6_failed_generation envGenFail wChat "t" "d" "uuid-0" "seo" "hi" metaC
    "vs_t_d" "boom" rfl rfl (by decide) rfl (by decide)
    (fun _ _ _ => rfl)

/-- Claim C7 counterexample: `add_message` on a chat_id whose session
document was never created is a Mongo `update_one` with no `upsert`, so
it appends nothing — the claim's unconditional "appends exactly one
entry at the end" fails for such a chat_id. -/
theorem claim7_counterexample :
    add_message envC ⟨[], [], [], 0, 0⟩ "c" "human" "hi" = ⟨[], [], [], 0, 1⟩ ∧
    get_messages (add_message envC ⟨[], [], [], 0, 0⟩ "c" "human" "hi") "c" ≠
      get_messages ⟨[], [], [], 0, 0⟩ "c" ++ [⟨"human", "hi", envC.times 0⟩] :=
  ⟨rfl, by decide⟩

/-- Claim C7 (amended): for every chat_id whose session document exists,
the store is append-only except for summarization — `add_message`
appends exactly one `{role, content, timestamp}` entry at the end
leaving the prefix unchanged, `summarize_if_needed` either leaves the
sequence unchanged or replaces it wholesale with one synthetic `ai`
entry, and N sequential `add_message` calls are returned by
`get_messages` in call order, with non-decreasing timestamps provided
the wall clock is monotone. -/
theorem claim7_append_only (env : Env) (w : World) (cid : String)
    (entries : List (String × String)) :
    (∀ r c, chat_exists w cid = true →
      get_messages (add_message env w cid r c) cid =
        get_messages w cid ++ [⟨r, c, env.times w.clock⟩]) ∧
    (∀ th, get_messages ((summarize_if_needed env w cid th).2) cid =
        get_messages w cid ∨
      ∃ s t, get_messages ((summarize_if_needed env w cid th).2) cid =
        [⟨"ai", s, t⟩]) ∧
    (chat_exists w cid = true → get_messages w cid = [] →
      Monotone env.times →
      get_messages (addAll env w cid entries) cid =
        stampFrom env w.clock entries ∧
      List.Chain' (fun a b => a.timestamp ≤ b.timestamp)
        (get_messages (addAll env w cid entries) cid)) := by
  refine ⟨?_, ?_, ?_⟩
  · intro r c h
    exact get_messages_add_message env w cid r c h
  · intro th
    by_cases hle : (get_messages w cid).length ≤ th
    · left
      simp only [summarize_if_needed]
      rw [if_pos hle]
    · right
      refine ⟨env.summarize (renderBlob (get_messages w cid)), env.times w.clock, ?_⟩
      have hsome : ∃ ms, lookupA w.chats cid = some ms := by
        cases hl : lookupA w.chats cid with
        | none =>
            exfalso
            have : get_messages w cid = [] := by
              unfold get_messages; rw [hl]; rfl
            rw [this] at hle; simp at hle
        | some ms => exact ⟨ms, rfl⟩
      obtain ⟨ms, hms⟩ := hsome
      simp only [summarize_if_needed]
      rw [if_neg hle]
      unfold get_messages
      simp only
      rw [lookupA_updateFirst, hms]
      rfl
  · intro h h0 hmono
    have hall := addAll_messages env w cid entries h
    rw [h0] at hall
    simp only [List.nil_append] at hall
    exact ⟨hall, by rw [hall]; exact stampFrom_chain env w.clock entries hmono⟩

/-- Witness for C7 (amended): three sequential appends on a fresh
session land in call order with non-decreasing timestamps. -/
theorem claim7_witness :
    (get_messages (add_message envC wColl "c" "human" "q1") "c" =
      get_messages wColl "c" ++ [⟨"human", "q1", envC.times wColl.clock⟩]) ∧
    (get_messages ((summarize_if_needed envC wColl "c" 10).2) "c" =
        get_messages wColl "c" ∨
      ∃ s t, get_messages ((summarize_if_needed envC wColl "c" 10).2) "c" =
        [⟨"ai", s, t⟩]) ∧
    (get_messages (addAll envC wColl "c" [("human", "q1"), ("ai", "a1"), ("human", "q2")]) "c" =
      stampFrom envC wColl.clock [("human", "q1"), ("ai", "a1"), ("human", "q2")] ∧
    List.Chain' (fun a b => a.timestamp ≤ b.timestamp)
      (get_messages (addAll envC wColl "c" [("human", "q1"), ("ai", "a1"), ("human", "q2")]) "c")) :=
  ⟨(claim7_append_only envC wColl "c" [("human", "q1"), ("ai", "a1"), ("human", "q2")]).1
      "human" "q1" rfl,
   (claim7_append_only envC wColl "c" [("human", "q1"), ("ai", "a1"), ("human", "q2")]).2.1 10,
   (claim7_append_only envC wColl "c" [("human", "q1"), ("ai", "a1"), ("human", "q2")]).2.2
      rfl rfl (fun _ _ hab => hab)⟩

/-- Helper: a successful fresh ingestion leaves a metadata record for
`(oid, dt)` whose `chat_id` is the `chat_id` of the response. -/
theorem ingest_new_ok_meta (env : Env) (w : World) (oid dt : String)
    (docs : List String) (r : SetupResp)
    (hfresh : metaFind w.meta oid dt = none)
    (h : (ingest_new env w oid dt docs).1 = Except.ok r) :
    ∃ m, metaFind ((ingest_new env w oid dt docs).2.1).meta oid dt = some m ∧
      m.chat_id = r.chat_id := by
  by_cases hde : docs.isEmpty
  · simp [ingest_new, hde] at h
  · rw [Bool.not_eq_true] at hde
    cases hv : getEmbeddingsForTexts env (env.split (String.intercalate "\n\n" docs)) with
    | error e => simp [ingest_new, hde, hv] at h
    | ok vectors =>
        by_cases hc1 : (vectors.isEmpty ||
            vectors.length != (env.split (String.intercalate "\n\n" docs)).length) = true
        · simp [ingest_new, hde, hv, hc1] at h
        · rw [Bool.not_eq_true] at hc1
          by_cases hc2 : (vectors.headD []).length = 0
          · have hc2' : vectors.head?.getD [] = [] := by
              have h' := List.length_eq_zero.mp hc2
              simpa using h'
            simp [ingest_new, hde, hv, hc1, hc2'] at h
          · simp only [ingest_new, hde, hv, hc1, hc2, Bool.false_eq_true, if_false,
              if_neg hc2] at h ⊢
            split at h
            next e heq =>
              simp at h
            next u heq =>
              simp only [Except.ok.injEq] at h
              subst h
              simp only
              refine ⟨_, metaFind_upsert_of_none _ _ _ _ _ _ _ _ _ ?_, rfl⟩
              rw [(upsertBatches_frame _ _ _ _ _).1, recreate_meta, create_session_meta]
              exact hfresh

/-- Claim C1: once a first initialization call has succeeded and
persisted metadata with a (nonempty) chat_id, a second call for the same
`(tenant_id, doc_type)` — with any documents, even none — returns the
same chat_id, performs no Qdrant operation (empty effect trace) and
leaves the vector index unchanged. -/
theorem claim1_setup_idempotent (env : Env) (w : World) (oid dt : String)
    (docs1 docs2 : List String) (r1 : SetupResp)
    (hfresh : metaFind w.meta oid dt = none)
    (h1 : (setup_rag_session env w oid dt docs1).1 = Except.ok r1)
    (hcid : r1.chat_id ≠ "") :
    ∃ r2 : SetupResp, ∃ w2 : World,
      setup_rag_session env ((setup_rag_session env w oid dt docs1).2.1) oid dt docs2 =
        (Except.ok r2, w2, ([] : List Eff)) ∧
      r2.chat_id = r1.chat_id ∧
      w2.index = ((setup_rag_session env w oid dt docs1).2.1).index := by
  have hset1 : setup_rag_session env w oid dt docs1 = ingest_new env w oid dt docs1 := by
    simp [setup_rag_session, hfresh]
  rw [hset1] at h1 ⊢
  obtain ⟨m, hm, hmc⟩ := ingest_new_ok_meta env w oid dt docs1 r1 hfresh h1
  have hne : m.chat_id.isEmpty = false := by
    rw [hmc, Bool.eq_false_iff]
    intro h'
    exact hcid ((String.isEmpty_iff _).mp h')
  have hset2 : setup_rag_session env ((ingest_new env w oid dt docs1).2.1) oid dt docs2 =
      setup_existing env ((ingest_new env w oid dt docs1).2.1) oid dt m := by
    simp [setup_rag_session, hm]
  rw [hset2]
  have hsx : setup_existing env ((ingest_new env w oid dt docs1).2.1) oid dt m =
      (Except.ok ⟨"RAG setup completed with existing vectorstore metadata.",
          m.chat_id, m.vectorstore_path⟩,
        upsert_vectorstore_metadata env
          (if chat_exists ((ingest_new env w oid dt docs1).2.1) m.chat_id then
            (ingest_new env w oid dt docs1).2.1
          else create_session ((ingest_new env w oid dt docs1).2.1) m.chat_id)
          oid dt m.vectorstore_path m.chat_id m.collection_name,
        []) := by
    simp [setup_existing, hne]
  rw [hsx]
  refine ⟨_, _, rfl, hmc, ?_⟩
  rw [upsert_meta_index]
  by_cases hce : chat_exists ((ingest_new env w oid dt docs1).2.1) m.chat_id
  · rw [if_pos hce]
  · rw [if_neg hce, create_session_index]

/-- Witness for C1: first call on the empty state, second call with no
documents at all still returns `uuid-0` with an empty effect trace. -/
theorem claim1_witness :
    ∃ r2 : SetupResp, ∃ w2 : World,
      setup_rag_session envC ((setup_rag_session envC w0 "t" "d" ["doc one"]).2.1)
          "t" "d" [] =
        (Except.ok r2, w2, ([] : List Eff)) ∧
      r2.chat_id = (⟨"RAG setup completed.", "uuid-0", some "qdrant://t/d"⟩ : SetupResp).chat_id ∧
      w2.index = ((setup_rag_session envC w0 "t" "d" ["doc one"]).2.1).index :=
  claim1_setup_idempotent envC w0 "t" "d" ["doc one"] []
    ⟨"RAG setup completed.", "uuid-0", some "qdrant://t/d"⟩ rfl rfl (by decide)

/-- Claim C4: when embedding produces a vector list that is empty, or of
a length different from the chunk list, or whose first vector has length
zero, the initialization fails with a 500 error before touching the
vector index: the index is unchanged, the effect trace is empty (no
collection created or replaced, no upsert), and no metadata record is
persisted. -/
theorem claim4_shape_mismatch (env : Env) (w : World) (oid dt : String)
    (docs : List String) (vectors : List (List Int))
    (hfresh : metaFind w.meta oid dt = none)
    (hdocs : docs ≠ [])
    (hv : getEmbeddingsForTexts env (env.split (String.intercalate "\n\n" docs)) =
      Except.ok vectors)
    (hbad : vectors = [] ∨
      vectors.length ≠ (env.split (String.intercalate "\n\n" docs)).length ∨
      (vectors.headD []).length = 0) :
    (∃ d, (setup_rag_session env w oid dt docs).1 = Except.error ⟨500, d⟩) ∧
    ((setup_rag_session env w oid dt docs).2.1).meta = w.meta ∧
    ((setup_rag_session env w oid dt docs).2.1).index = w.index ∧
    (setup_rag_session env w oid dt docs).2.2 = [] ∧
    metaFind ((setup_rag_session env w oid dt docs).2.1).meta oid dt = none := by
  have hde : docs.isEmpty = false := by
    cases docs with
    | nil => exact absurd rfl hdocs
    | cons a as => rfl
  by_cases hc1 : (vectors.isEmpty ||
      vectors.length != (env.split (String.intercalate "\n\n" docs)).length) = true
  · have hred : setup_rag_session env w oid dt docs =
        (Except.error ⟨500, "Embedding generation failed or returned unexpected shape."⟩,
          create_session { w with uuidCount := w.uuidCount + 1 } (env.uuids w.uuidCount),
          []) := by
      simp [setup_rag_session, hfresh, ingest_new, hde, hv, hc1]
    rw [hred]
    refine ⟨⟨_, rfl⟩, ?_, ?_, rfl, ?_⟩
    · rw [create_session_meta]
    · rw [create_session_index]
    · rw [create_session_meta]; exact hfresh
  · rw [Bool.not_eq_true] at hc1
    have hc1' : ¬ vectors = [] ∧
        vectors.length = (env.split (String.intercalate "\n\n" docs)).length := by
      constructor
      · intro he
        rw [he] at hc1
        simp at hc1
      · by_contra hne
        have : (vectors.length != (env.split (String.intercalate "\n\n" docs)).length) = true := by
          simpa [bne_iff_ne] using hne
        rw [this] at hc1
        simp at hc1
    have hc2 : (vectors.headD []).length = 0 := by
      rcases hbad with h' | h' | h'
      · exact absurd h' hc1'.1
      · exact absurd hc1'.2 h'
      · exact h'
    have hc2' : vectors.head?.getD [] = [] := by
      have h' := List.length_eq_zero.mp hc2
      simpa using h'
    have hred : setup_rag_session env w oid dt docs =
        (Except.error ⟨500, "Embedding returned empty vectors"⟩,
          create_session { w with uuidCount := w.uuidCount + 1 } (env.uuids w.uuidCount),
          []) := by
      simp [setup_rag_session, hfresh, ingest_new, hde, hv, hc1, hc2']
    rw [hred]
    refine ⟨⟨_, rfl⟩, ?_, ?_, rfl, ?_⟩
    · rw [create_session_meta]
    · rw [create_session_index]
    · rw [create_session_meta]; exact hfresh

/-- Witness for C4: an embedding provider that returns zero vectors for
one chunk aborts the setup with a 500 and leaves no trace. -/
theorem claim4_witness :
    (∃ d, (setup_rag_session envBadEmbed w0 "t" "d" ["doc one"]).1 =
      Except.error ⟨500, d⟩) ∧
    ((setup_rag_session envBadEmbed w0 "t" "d" ["doc one"]).2.1).meta = w0.meta ∧
    ((setup_rag_session envBadEmbed w0 "t" "d" ["doc one"]).2.1).index = w0.index ∧
    (setup_rag_session envBadEmbed w0 "t" "d" ["doc one"]).2.2 = [] ∧
    metaFind ((setup_rag_session envBadEmbed w0 "t" "d" ["doc one"]).2.1).meta
      "t" "d" = none :=
  claim4_shape_mismatch envBadEmbed w0 "t" "d" ["doc one"] [] rfl
    (by decide) rfl (Or.inl rfl)

/-- Claim C10: a first-time initialization whose documents are all empty
strings passes the missing-documents check, splits into zero chunks, and
fails with the 500 shape error before touching the vector index or
persisting metadata. -/
theorem claim10_zero_chunks (env : Env) (w : World) (oid dt : String)
    (docs : List String)
    (hfresh : metaFind w.meta oid dt = none)
    (hdocs : docs ≠ [])
    (hsplit : env.split (String.intercalate "\n\n" docs) = []) :
    (setup_rag_session env w oid dt docs).1 =
      Except.error ⟨500, "Embedding generation failed or returned unexpected shape."⟩ ∧
    ((setup_rag_session env w oid dt docs).2.1).meta = w.meta ∧
    ((setup_rag_session env w oid dt docs).2.1).index = w.index ∧
    (setup_rag_session env w oid dt docs).2.2 = [] ∧
    metaFind ((setup_rag_session env w oid dt docs).2.1).meta oid dt = none := by
  have hde : docs.isEmpty = false := by
    cases docs with
    | nil => exact absurd rfl hdocs
    | cons a as => rfl
  have hred : setup_rag_session env w oid dt docs =
      (Except.error ⟨500, "Embedding generation failed or returned unexpected shape."⟩,
        create_session { w with uuidCount := w.uuidCount + 1 } (env.uuids w.uuidCount),
        []) := by
    simp [setup_rag_session, hfresh, ingest_new, hde, hsplit, getEmbeddingsForTexts]
  rw [hred]
  refine ⟨rfl, ?_, ?_, rfl, ?_⟩
  · rw [create_session_meta]
  · rw [create_session_index]
  · rw [create_session_meta]; exact hfresh

/-- Witness for C10: one empty-string document under `envC`. -/
theorem claim10_witness :
    (setup_rag_session envC w0 "t" "d" [""]).1 =
      Except.error ⟨500, "Embedding generation failed or returned unexpected shape."⟩ ∧
    ((setup_rag_session envC w0 "t" "d" [""]).2.1).meta = w0.meta ∧
    ((setup_rag_session envC w0 "t" "d" [""]).2.1).index = w0.index ∧
    (setup_rag_session envC w0 "t" "d" [""]).2.2 = [] ∧
    metaFind ((setup_rag_session envC w0 "t" "d" [""]).2.1).meta "t" "d" = none :=
  claim10_zero_chunks envC w0 "t" "d" [""] rfl (by decide) rfl

end MaasRag
